import Mathlib

/-!
Shallow embedding of the donor fund tracker backend
(`src/dfinity_js_backend/src/index.ts`).

Modelling choices, fixed once for the whole development:

* Principals (identities) and logical time are naturals; `Principal.toText`
  is decimal printing.
* Each `StableBTreeMap` is an association list with overwrite-on-insert
  semantics, accessed only through `tget` / `tinsert` / `tremove`, the
  interface the source uses (`get` / `insert` / `remove`).
* The external ledger canister is the list of its blocks; a
  `query_blocks {start, length}` call returns the corresponding slice.
* The external `hashcode` package applied to strings (used for memos) is
  reproduced bit for bit: the JS loop `h = (h << 5) - h + c` truncated to a
  signed 32-bit integer, followed by `Math.abs` and `BigInt`.  Applied to
  binary addresses (inside `verifyPaymentInternal`) it is modelled as an
  injective encoding of the address, since the 32-byte account identifiers
  it is fed are opaque external data.
* Ambient values (`ic.caller()`, `ic.time()`, `uuidv4()`,
  `new Date().toISOString()`, the ledger) are explicit parameters.
* A JavaScript `throw` inside an update method traps the message on the IC
  and rolls local state back to the last commit point (here: the resumption
  of the `await` on the ledger call, before which nothing was mutated), so
  the trapping branch returns the caller-visible state unchanged.
-/

namespace DonorTracker

/-- Principals (identities) are modelled as naturals. -/
abbrev Principal := Nat

/-- Lookup in an association table (model of `StableBTreeMap.get`). -/
def tget {κ ν : Type} [DecidableEq κ] : List (κ × ν) → κ → Option ν
  | [], _ => none
  | (k', v) :: rest, k => if k' = k then some v else tget rest k

/-- Removal of every binding of a key (model of `StableBTreeMap.remove`). -/
def tremove {κ ν : Type} [DecidableEq κ] : List (κ × ν) → κ → List (κ × ν)
  | [], _ => []
  | (k', v) :: rest, k => if k' = k then tremove rest k else (k', v) :: tremove rest k

/-- Insert, overwriting any previous binding (model of `StableBTreeMap.insert`). -/
def tinsert {κ ν : Type} [DecidableEq κ] (m : List (κ × ν)) (k : κ) (v : ν) : List (κ × ν) :=
  (k, v) :: tremove m k

/-- One step of the JS string hash: `h = (h << 5) - h + c` truncated to 32 bits,
which is `31 * h + c` modulo `2 ^ 32`. -/
def hashStep (h c : Nat) : Nat := (h * 31 + c) % 4294967296

/-- The 32-bit string hash of the external `hashcode` package, before `Math.abs`. -/
def hash32 (str : String) : Nat := str.data.foldl (fun h c => hashStep h c.toNat) 0

/-- JavaScript `Math.abs` on the value `h` read back as a signed 32-bit integer. -/
def jsAbs32 (h : Nat) : Nat := if h < 2147483648 then h else 4294967296 - h

/-- Model of the source's `hash` helper on strings:
`BigInt(Math.abs(hashCode().value(input)))`. -/
def hashText (str : String) : Nat := jsAbs32 (hash32 str)

/-- Decimal printing of a principal, model of `Principal.toText()`. -/
def principalToText (p : Principal) : String := toString p

/-- Source `generateCorrelationId(bookId)`: the hash of
`bookId + "_" + caller.toText() + "_" + time`, with the ambient caller and
time made explicit. -/
def generateCorrelationId (caller : Principal) (time : Nat) (bookId : String) : Nat :=
  hashText (bookId ++ "_" ++ principalToText caller ++ "_" ++ toString time)

/-- A ledger account identifier, as produced by `binaryAddressFromPrincipal`. -/
structure Address where
  owner : Principal
  subaccount : Nat
  deriving DecidableEq

/-- Model of azle's `binaryAddressFromPrincipal`. -/
def binaryAddressFromPrincipal (p : Principal) (sub : Nat) : Address :=
  { owner := p, subaccount := sub }

/-- Model of the external `hash` applied to a binary address inside
`verifyPaymentInternal`, as an injective numeric encoding of the address. -/
def hashAddr (a : Address) : Nat := Nat.pair a.owner a.subaccount

/-- The payload of a ledger `Transfer` operation.  The `amount` field is the
`e8s` component the source compares against. -/
structure TransferOp where
  from_ : Address
  to_ : Address
  amount : Nat
  fee : Nat
  deriving DecidableEq

/-- A ledger block operation: `Transfer`, `Mint` or `Burn`. -/
inductive Operation where
  | Transfer (t : TransferOp)
  | Mint (to_ : Address) (amount : Nat)
  | Burn (from_ : Address) (amount : Nat)
  deriving DecidableEq

/-- A ledger transaction: a memo and an optional operation. -/
structure Transaction where
  memo : Nat
  operation : Option Operation
  deriving DecidableEq

/-- A ledger block. -/
structure Block where
  transaction : Transaction
  deriving DecidableEq

/-- Model of the ledger's `query_blocks { start, length }`: the corresponding
slice of the chain. -/
def queryBlocks (ledger : List Block) (start length : Nat) : List Block :=
  (ledger.drop start).take length

/-- The predicate the source passes to `blockData.blocks.find` inside
`verifyPaymentInternal`: a block matches when it carries an operation, the
operation is a `Transfer` (a non-`Transfer` operation leaves
`Transfer?.amount` `undefined`, never equal to a bigint, so it never
matches), its memo equals the supplied memo, the hashed sender address
matches the hash of the ambient caller's address, the hashed receiver
address matches the hash of `receiver`'s address, and the amount matches
exactly. -/
def paymentMatches (caller receiver : Principal) (amount memo : Nat) (b : Block) : Bool :=
  match b.transaction.operation with
  | none => false
  | some op =>
    let senderAddress := binaryAddressFromPrincipal caller 0
    let receiverAddress := binaryAddressFromPrincipal receiver 0
    match op with
    | Operation.Transfer t =>
      decide (b.transaction.memo = memo) &&
      decide (hashAddr senderAddress = hashAddr t.from_) &&
      decide (hashAddr receiverAddress = hashAddr t.to_) &&
      decide (amount = t.amount)
    | _ => false

/-- Source `verifyPaymentInternal(receiver, amount, block, memo)` with the
ambient `ic.caller()` and the external ledger made explicit.  It queries one
block at `blockIdx` and searches the returned slice for a matching transfer;
the result is whether a matching transaction was found. -/
def verifyPaymentInternal (ledger : List Block) (caller : Principal)
    (receiver : Principal) (amount blockIdx memo : Nat) : Bool :=
  let blockData := queryBlocks ledger blockIdx 1
  (blockData.find? (paymentMatches caller receiver amount memo)).isSome

/-- Source `DonorProfile` record. -/
structure DonorProfile where
  id : String
  owner : Principal
  name : String
  phoneNumber : String
  email : String
  address : String
  donationAmount : Nat
  donations : List String
  donationsCount : Nat
  status : String
  joinedAt : String
  deriving DecidableEq

/-- Source `Charity` record. -/
structure Charity where
  id : String
  owner : Principal
  name : String
  phoneNumber : String
  email : String
  address : String
  missionStatement : String
  totalReceived : Nat
  donationsReceived : List String
  donationsCount : Nat
  status : String
  registeredAt : String
  deriving DecidableEq

/-- Source `CampaignStatus` variant (each tag carries its text payload). -/
inductive CampaignStatus where
  | Active (s : String)
  | Accepted (s : String)
  | Completed (s : String)
  | Cancelled (s : String)
  | Pending (s : String)
  deriving DecidableEq

/-- Source `Campaign` record. -/
structure Campaign where
  id : String
  charityId : String
  title : String
  description : String
  targetAmount : Nat
  totalReceived : Nat
  donors : List String
  status : CampaignStatus
  creator : Principal
  startedAt : String
  deriving DecidableEq

/-- Source `DonationStatus` variant. -/
inductive DonationStatus where
  | PaymentPending (s : String)
  | Completed (s : String)
  | Cancelled (s : String)
  deriving DecidableEq

/-- Source `Donation` record (used both for pending reservations and for
completed donations). -/
structure Donation where
  id : String
  donorId : String
  charityId : String
  campaignId : String
  donator : Principal
  receiver : Principal
  amount : Nat
  status : DonationStatus
  createdAt : String
  paid_at_block : Option Nat
  memo : Nat
  deriving DecidableEq

/-- Source `DonationReportStatus` variant. -/
inductive DonationReportStatus where
  | Pending (s : String)
  | Completed (s : String)
  | Cancelled (s : String)
  deriving DecidableEq

/-- Source `DonationReport` record. -/
structure DonationReport where
  id : String
  donorId : String
  charityId : String
  campaignId : String
  campaignTitle : String
  amount : Nat
  status : DonationReportStatus
  createdAt : String
  paidAt : Option String
  deriving DecidableEq

/-- Source `Message` variant (error/result taxonomy). -/
inductive Message where
  | Success (s : String)
  | Error (s : String)
  | NotFound (s : String)
  | InvalidPayload (s : String)
  | PaymentFailed (s : String)
  | PaymentCompleted (s : String)
  deriving DecidableEq

/-- Source `DonationPayload` record. -/
structure DonationPayload where
  donorId : String
  charityId : String
  campaignId : String
  amount : Nat
  deriving DecidableEq

/-- Source `CampaignPayload` record. -/
structure CampaignPayload where
  charityId : String
  title : String
  description : String
  targetAmount : Nat
  deriving DecidableEq

/-- The canister's stable storage: one association table per
`StableBTreeMap` of the source. -/
structure State where
  donorProfileStorage : List (String × DonorProfile)
  charityProfileStorage : List (String × Charity)
  campaignStorage : List (String × Campaign)
  persistedReserves : List (Principal × Donation)
  pendingReserves : List (Nat × Donation)
  donationReportStorage : List (String × DonationReport)
  deriving DecidableEq

/-- Tagged result of an operation, model of azle's `Result(_, Message)`. -/
inductive Res (α : Type) where
  | ok (a : α)
  | err (e : Message)
  deriving DecidableEq

/-- Outcome of `completeReserveDonation`, which unlike the other operations
can also trap (JS `throw`) instead of returning a tagged result. -/
inductive CompleteResult where
  | ok (d : Donation)
  | err (e : Message)
  | trapped (msg : String)
  deriving DecidableEq

/-- Error text of `reserveDonation` for a missing donor. -/
def reserveDonorNotFound (did : String) : String :=
  "Cannot reserve donation: Donor with id=" ++ did ++ " not found"

/-- Error text of `reserveDonation` for a missing charity. -/
def reserveCharityNotFound (cid : String) : String :=
  "Cannot reserve donation: Charity with id=" ++ cid ++ " not found"

/-- Error text of `reserveDonation` for a missing campaign. -/
def reserveCampaignNotFound (kid : String) : String :=
  "Cannot reserve donation: Campaign with id=" ++ kid ++ " not found"

/-- Error text of `completeReserveDonation` when verification fails. -/
def verifyFailedMsg (memo : Nat) : String :=
  "Cannot complete the donation reserve: cannot verify the payment, memo=" ++ toString memo

/-- Error text of `completeReserveDonation` when no pending reserve exists. -/
def noPendingMsg (did : String) : String :=
  "Cannot complete the donation reserve: there is no pending reserve with id=" ++ did

/-- Trap text of `completeReserveDonation` when the donor is missing. -/
def donorTrapMsg (did : String) : String :=
  "Donor with id=" ++ did ++ " not found"

/-- Error text of the campaign operations for a missing campaign. -/
def campaignNotFoundMsg (kid : String) : String :=
  "Campaign with id=" ++ kid ++ " not found"

/-- Source `reserveDonation(payload)`: validates the payload, checks donor,
charity and campaign existence in that order, then builds the pending
reservation and inserts it into `pendingReserves` keyed by its memo.  The
`discardByTimeout` scheduling is a timer registration whose eventual effect
is `discardTimeoutCallback` below; the timer queue itself is not part of the
stable storage. -/
def reserveDonation (caller : Principal) (time : Nat) (uuid nowIso : String)
    (s : State) (payload : DonationPayload) : Res Donation × State :=
  if payload.donorId = "" ∨ payload.charityId = "" ∨ payload.campaignId = "" then
    (.err (.InvalidPayload "Ensure all required fields are provided"), s)
  else
    match tget s.donorProfileStorage payload.donorId with
    | none => (.err (.NotFound (reserveDonorNotFound payload.donorId)), s)
    | some donor =>
      match tget s.charityProfileStorage payload.charityId with
      | none => (.err (.NotFound (reserveCharityNotFound payload.charityId)), s)
      | some _charity =>
        match tget s.campaignStorage payload.campaignId with
        | none => (.err (.NotFound (reserveCampaignNotFound payload.campaignId)), s)
        | some campaign =>
          let donation : Donation :=
            { id := uuid
              donorId := payload.donorId
              charityId := payload.charityId
              campaignId := payload.campaignId
              donator := donor.owner
              receiver := campaign.creator
              amount := payload.amount
              status := .PaymentPending "PaymentPending"
              createdAt := nowIso
              paid_at_block := none
              memo := generateCorrelationId caller time payload.donorId }
          (.ok donation,
            { s with pendingReserves := tinsert s.pendingReserves donation.memo donation })

/-- Source `completeReserveDonation(reservor, donorId, reservePrice, block,
memo)` with the ambient caller and ledger made explicit.  Verification uses
the caller-supplied `reservor` as receiver and the ambient caller as sender;
on success the pending entry keyed by `memo` is removed, the donor keyed by
`donorId` is credited `reservePrice`, and the completed record is persisted
keyed by the caller.  A missing donor after removal is a JS `throw`: the
trap rolls the message's mutations back, so the returned state is the input
state. -/
def completeReserveDonation (caller : Principal) (ledger : List Block) (s : State)
    (reservor : Principal) (donorId : String) (reservePrice blockIdx memo : Nat) :
    CompleteResult × State :=
  if verifyPaymentInternal ledger caller reservor reservePrice blockIdx memo = false then
    (.err (.NotFound (verifyFailedMsg memo)), s)
  else
    match tget s.pendingReserves memo with
    | none => (.err (.NotFound (noPendingMsg donorId)), s)
    | some reserve =>
      let updatedReserve : Donation :=
        { reserve with status := .Completed "COMPLETED", paid_at_block := some blockIdx }
      match tget s.donorProfileStorage donorId with
      | none => (.trapped (donorTrapMsg donorId), s)
      | some donor =>
        let donor1 := { donor with donationAmount := donor.donationAmount + reservePrice }
        (.ok updatedReserve,
          { s with
            pendingReserves := tremove s.pendingReserves memo
            donorProfileStorage := tinsert s.donorProfileStorage donor1.id donor1
            persistedReserves := tinsert s.persistedReserves caller updatedReserve })

/-- Body of the timer scheduled by `discardByTimeout(memo, delay)`: remove
the pending entry keyed by `memo` (removal of an absent key is a no-op). -/
def discardTimeoutCallback (s : State) (memo : Nat) : State :=
  { s with pendingReserves := tremove s.pendingReserves memo }

/-- Source `updateCampaign(campaignId, payload)`: missing campaign is
`NotFound`; a caller other than the creator gets `Err({Error:
"Unauthorized"})`; otherwise the payload fields overwrite the record. -/
def updateCampaign (caller : Principal) (s : State) (campaignId : String)
    (payload : CampaignPayload) : Res Campaign × State :=
  match tget s.campaignStorage campaignId with
  | none => (.err (.NotFound (campaignNotFoundMsg campaignId)), s)
  | some campaign =>
    if campaign.creator ≠ caller then
      (.err (.Error "Unauthorized"), s)
    else
      let updatedCampaign :=
        { campaign with
          charityId := payload.charityId
          title := payload.title
          description := payload.description
          targetAmount := payload.targetAmount }
      (.ok updatedCampaign,
        { s with campaignStorage := tinsert s.campaignStorage campaignId updatedCampaign })

/-- Source `deleteCampaignById(campaignId)`: missing campaign is `NotFound`;
a caller other than the creator gets `Err({Error: "Unauthorized"})`;
otherwise the record is removed. -/
def deleteCampaignById (caller : Principal) (s : State) (campaignId : String) :
    Res Unit × State :=
  match tget s.campaignStorage campaignId with
  | none => (.err (.NotFound (campaignNotFoundMsg campaignId)), s)
  | some campaign =>
    if campaign.creator ≠ caller then
      (.err (.Error "Unauthorized"), s)
    else
      (.ok (), { s with campaignStorage := tremove s.campaignStorage campaignId })

/-- Source `completeCampaign(campaignId)`: missing campaign is `NotFound`;
otherwise the status is set to `Completed` and the record stored back.  The
source performs no ownership check on this path, so the caller is unused. -/
def completeCampaign (_caller : Principal) (s : State) (campaignId : String) :
    Res Campaign × State :=
  match tget s.campaignStorage campaignId with
  | none => (.err (.NotFound (campaignNotFoundMsg campaignId)), s)
  | some campaign =>
    let updatedCampaign := { campaign with status := .Completed "Completed" }
    (.ok updatedCampaign,
      { s with campaignStorage := tinsert s.campaignStorage campaignId updatedCampaign })

/-- The reservation record `reserveDonation` constructs on its success path,
as a function of the ambient values, the payload and the records found for
the donor and the campaign. -/
def mkReservation (caller : Principal) (time : Nat) (uuid nowIso : String)
    (payload : DonationPayload) (donor : DonorProfile) (campaign : Campaign) : Donation :=
  { id := uuid
    donorId := payload.donorId
    charityId := payload.charityId
    campaignId := payload.campaignId
    donator := donor.owner
    receiver := campaign.creator
    amount := payload.amount
    status := .PaymentPending "PaymentPending"
    createdAt := nowIso
    paid_at_block := none
    memo := generateCorrelationId caller time payload.donorId }

/-- A sample donor used by the concrete witnesses. -/
def dAlice : DonorProfile :=
  { id := "d1", owner := 7, name := "Alice", phoneNumber := "123", email := "a@b.co"
    address := "addr", donationAmount := 20, donations := [], donationsCount := 0
    status := "Active", joinedAt := "t0" }

/-- A sample charity used by the concrete witnesses. -/
def cHope : Charity :=
  { id := "c1", owner := 8, name := "Hope", phoneNumber := "456", email := "h@b.co"
    address := "addr2", missionStatement := "help", totalReceived := 0
    donationsReceived := [], donationsCount := 0, status := "Active", registeredAt := "t0" }

/-- A sample campaign (creator principal 9) used by the concrete witnesses. -/
def kDrive : Campaign :=
  { id := "k1", charityId := "c1", title := "Drive", description := "d"
    targetAmount := 1000, totalReceived := 0, donors := [], status := .Pending "Pending"
    creator := 9, startedAt := "t0" }

/-- A sample state holding the donor, charity and campaign above. -/
def baseState : State :=
  { donorProfileStorage := [("d1", dAlice)]
    charityProfileStorage := [("c1", cHope)]
    campaignStorage := [("k1", kDrive)]
    persistedReserves := []
    pendingReserves := []
    donationReportStorage := [] }

/-- A one-block ledger whose block carries a transfer `sender → recv` of
`amt` with the given memo, used by the concrete witnesses. -/
def oneBlockLedger (memoV : Nat) (sender recv : Principal) (amt : Nat) : List Block :=
  [{ transaction :=
      { memo := memoV
        operation := some (.Transfer
          { from_ := binaryAddressFromPrincipal sender 0
            to_ := binaryAddressFromPrincipal recv 0
            amount := amt
            fee := 10 }) } }]

/-- A sample pending reservation (memo 42, amount 100) used by the concrete
witnesses. -/
def wReserve : Donation :=
  { id := "r1", donorId := "d1", charityId := "c1", campaignId := "k1"
    donator := 7, receiver := 9, amount := 100
    status := .PaymentPending "PaymentPending", createdAt := "t1"
    paid_at_block := none, memo := 42 }

/-- The sample state with `wReserve` pending under its memo. -/
def pendState : State :=
  { baseState with pendingReserves := [(42, wReserve)] }

/-- Looking a key up right after inserting it yields the inserted value. -/
theorem tget_tinsert_self {κ ν : Type} [DecidableEq κ] (m : List (κ × ν)) (k : κ) (v : ν) :
    tget (tinsert m k v) k = some v := by
  simp [tinsert, tget]

/-- Looking a key up right after removing it yields nothing. -/
theorem tget_tremove_self {κ ν : Type} [DecidableEq κ] (m : List (κ × ν)) (k : κ) :
    tget (tremove m k) k = none := by
  induction m with
  | nil => simp [tremove, tget]
  | cons p rest ih =>
    obtain ⟨a, v⟩ := p
    by_cases h : a = k <;> simp [tremove, tget, h, ih]

/-- Removing one key leaves lookups of any other key unchanged. -/
theorem tget_tremove_ne {κ ν : Type} [DecidableEq κ] (m : List (κ × ν)) (k k' : κ)
    (h : k' ≠ k) : tget (tremove m k) k' = tget m k' := by
  induction m with
  | nil => simp [tremove]
  | cons p rest ih =>
    obtain ⟨a, v⟩ := p
    by_cases ha : a = k
    · subst ha
      simp [tremove, tget, Ne.symm h, ih]
    · by_cases hb : a = k' <;> simp [tremove, tget, ha, hb, h, ih]

/-- Removing an absent key is a no-op on the table. -/
theorem tremove_of_absent {κ ν : Type} [DecidableEq κ] (m : List (κ × ν)) (k : κ)
    (h : tget m k = none) : tremove m k = m := by
  induction m with
  | nil => simp [tremove]
  | cons p rest ih =>
    obtain ⟨a, v⟩ := p
    by_cases ha : a = k
    · simp [tget, ha] at h
    · simp [tget, ha] at h
      simp [tremove, ha, ih h]

/-- The model's hash of binary addresses is injective, so the source's
hash-to-hash comparison coincides with address equality. -/
theorem hashAddr_inj (a b : Address) : hashAddr a = hashAddr b ↔ a = b := by
  constructor
  · intro h
    have h2 := congrArg Nat.unpair h
    simp only [hashAddr, Nat.unpair_pair, Prod.mk.injEq] at h2
    cases a
    cases b
    simp_all
  · intro h
    rw [h]

/-- A list truncated to at most one element is empty or a singleton. -/
theorem take_one_cases {α : Type} (l : List α) : l.take 1 = [] ∨ ∃ x, l.take 1 = [x] := by
  cases l with
  | nil => exact Or.inl rfl
  | cons x rest => exact Or.inr ⟨x, by simp⟩

/-- The search predicate of the verifier accepts a block exactly when the
block carries a `Transfer` whose memo, sender address, receiver address and
amount all agree with the supplied values. -/
theorem paymentMatches_iff (caller receiver : Principal) (amount memo : Nat) (b : Block) :
    paymentMatches caller receiver amount memo b = true ↔
    ∃ t : TransferOp,
      b.transaction.operation = some (.Transfer t) ∧
      b.transaction.memo = memo ∧
      t.from_ = binaryAddressFromPrincipal caller 0 ∧
      t.to_ = binaryAddressFromPrincipal receiver 0 ∧
      t.amount = amount := by
  cases hop : b.transaction.operation with
  | none => simp [paymentMatches, hop]
  | some op =>
    cases op with
    | Transfer t =>
      simp only [paymentMatches, hop, Bool.and_eq_true, decide_eq_true_eq, hashAddr_inj]
      constructor
      · rintro ⟨⟨⟨hm, hf⟩, hto⟩, ha⟩
        exact ⟨t, rfl, hm, hf.symm, hto.symm, ha.symm⟩
      · rintro ⟨t2, ht2, hm, hf, hto, ha⟩
        rw [Option.some.injEq, Operation.Transfer.injEq] at ht2
        subst ht2
        exact ⟨⟨⟨hm, hf.symm⟩, hto.symm⟩, ha.symm⟩
    | Mint toA amt => simp [paymentMatches, hop]
    | Burn fromA amt => simp [paymentMatches, hop]

/-- Searching a singleton list succeeds exactly when its element matches. -/
theorem find_singleton_isSome {α : Type} (p : α → Bool) (x : α) :
    (List.find? p [x]).isSome = true ↔ p x = true := by
  cases hx : p x <;> simp [List.find?, hx]

/-- C4: `verifyPayment` returns true exactly when the ledger slice queried at
`blockIdx` is a single block carrying a `Transfer` whose memo equals the
supplied memo, whose source address is the address derived from the
verifying caller, whose destination address is the address derived from
`receiver`, and whose amount equals `amount` exactly.  In particular it
returns false (it is a total `Bool`-valued function, so it never raises)
when the block is absent, when the block has no transfer operation, and on
any field mismatch. -/
theorem c4_verify_characterization (ledger : List Block) (caller receiver : Principal)
    (amount blockIdx memo : Nat) :
    verifyPaymentInternal ledger caller receiver amount blockIdx memo = true ↔
    ∃ (b : Block) (t : TransferOp),
      queryBlocks ledger blockIdx 1 = [b] ∧
      b.transaction.operation = some (.Transfer t) ∧
      b.transaction.memo = memo ∧
      t.from_ = binaryAddressFromPrincipal caller 0 ∧
      t.to_ = binaryAddressFromPrincipal receiver 0 ∧
      t.amount = amount := by
  unfold verifyPaymentInternal queryBlocks
  rcases take_one_cases (ledger.drop blockIdx) with h | ⟨x, h⟩
  · rw [h]
    simp
  · rw [h, find_singleton_isSome, paymentMatches_iff]
    constructor
    · rintro ⟨t, hop, hm, hf, hto, ha⟩
      exact ⟨x, t, rfl, hop, hm, hf, hto, ha⟩
    · rintro ⟨b, t, hb, hop, hm, hf, hto, ha⟩
      rw [List.cons.injEq] at hb
      obtain ⟨hxb, -⟩ := hb
      subst hxb
      exact ⟨t, hop, hm, hf, hto, ha⟩

/-- C3: when ledger verification returns false, `completeReserveDonation`
returns a `NotFound` error and the returned state is exactly the input
state, so no table was mutated and a later retry can still succeed. -/
theorem c3_verify_failure_no_mutation (caller : Principal) (ledger : List Block)
    (s : State) (reservor : Principal) (donorId : String)
    (reservePrice blockIdx memo : Nat)
    (hv : verifyPaymentInternal ledger caller reservor reservePrice blockIdx memo = false) :
    completeReserveDonation caller ledger s reservor donorId reservePrice blockIdx memo =
      (.err (.NotFound (verifyFailedMsg memo)), s) := by
  simp [completeReserveDonation, hv]

/-- C3 witness: with an empty ledger, verification fails and completion on
the sample pending state returns the `NotFound` error with the state
untouched. -/
theorem c3_verify_failure_no_mutation_witness :
    completeReserveDonation 7 [] pendState 9 "d1" 100 0 42 =
      (.err (.NotFound (verifyFailedMsg 42)), pendState) :=
  c3_verify_failure_no_mutation 7 [] pendState 9 "d1" 100 0 42 (by decide)

/-- C5: for a payload with non-empty ids, `reserveDonation` fails with a
`NotFound` error naming the first missing entity in the order donor, then
charity, then campaign, and on each failure returns the state unchanged. -/
theorem c5_reserve_missing_entities (caller : Principal) (time : Nat)
    (uuid nowIso : String) (payload : DonationPayload) (sA sB sC : State)
    (donorB donorC : DonorProfile) (charityC : Charity)
    (h1 : payload.donorId ≠ "") (h2 : payload.charityId ≠ "") (h3 : payload.campaignId ≠ "")
    (hA : tget sA.donorProfileStorage payload.donorId = none)
    (hB1 : tget sB.donorProfileStorage payload.donorId = some donorB)
    (hB2 : tget sB.charityProfileStorage payload.charityId = none)
    (hC1 : tget sC.donorProfileStorage payload.donorId = some donorC)
    (hC2 : tget sC.charityProfileStorage payload.charityId = some charityC)
    (hC3 : tget sC.campaignStorage payload.campaignId = none) :
    reserveDonation caller time uuid nowIso sA payload =
      (.err (.NotFound (reserveDonorNotFound payload.donorId)), sA) ∧
    reserveDonation caller time uuid nowIso sB payload =
      (.err (.NotFound (reserveCharityNotFound payload.charityId)), sB) ∧
    reserveDonation caller time uuid nowIso sC payload =
      (.err (.NotFound (reserveCampaignNotFound payload.campaignId)), sC) := by
  refine ⟨?_, ?_, ?_⟩ <;>
    simp [reserveDonation, hA, hB1, hB2, hC1, hC2, hC3, h1, h2, h3]

/-- C5 witness: concrete states missing the donor, the charity, and the
campaign respectively produce the three `NotFound` errors in order. -/
theorem c5_reserve_missing_entities_witness :
    reserveDonation 7 0 "u1" "now" { baseState with donorProfileStorage := [] }
        ⟨"d1", "c1", "k1", 100⟩ =
      (.err (.NotFound (reserveDonorNotFound "d1")),
        { baseState with donorProfileStorage := [] }) ∧
    reserveDonation 7 0 "u1" "now" { baseState with charityProfileStorage := [] }
        ⟨"d1", "c1", "k1", 100⟩ =
      (.err (.NotFound (reserveCharityNotFound "c1")),
        { baseState with charityProfileStorage := [] }) ∧
    reserveDonation 7 0 "u1" "now" { baseState with campaignStorage := [] }
        ⟨"d1", "c1", "k1", 100⟩ =
      (.err (.NotFound (reserveCampaignNotFound "k1")),
        { baseState with campaignStorage := [] }) :=
  c5_reserve_missing_entities 7 0 "u1" "now" ⟨"d1", "c1", "k1", 100⟩
    { baseState with donorProfileStorage := [] }
    { baseState with charityProfileStorage := [] }
    { baseState with campaignStorage := [] }
    dAlice dAlice cHope
    (by decide) (by decide) (by decide) (by decide) (by decide) (by decide)
    (by decide) (by decide) (by decide)

/-- C6: when the payload's donor, charity and campaign all exist,
`reserveDonation` returns a reservation with status `PaymentPending`, payer
(`donator`) the donor record's owner, payee (`receiver`) the campaign
record's creator, and memo the correlation-id generator's output for the
donor id, and inserts it into the pending table keyed by that memo. -/
theorem c6_reserve_success (caller : Principal) (time : Nat) (uuid nowIso : String)
    (s : State) (payload : DonationPayload)
    (donor : DonorProfile) (charity : Charity) (campaign : Campaign)
    (h1 : payload.donorId ≠ "") (h2 : payload.charityId ≠ "") (h3 : payload.campaignId ≠ "")
    (hd : tget s.donorProfileStorage payload.donorId = some donor)
    (hc : tget s.charityProfileStorage payload.charityId = some charity)
    (hk : tget s.campaignStorage payload.campaignId = some campaign) :
    ∃ d : Donation,
      reserveDonation caller time uuid nowIso s payload =
        (.ok d, { s with pendingReserves := tinsert s.pendingReserves d.memo d }) ∧
      d.status = .PaymentPending "PaymentPending" ∧
      d.donator = donor.owner ∧
      d.receiver = campaign.creator ∧
      d.amount = payload.amount ∧
      d.memo = generateCorrelationId caller time payload.donorId ∧
      tget (tinsert s.pendingReserves d.memo d) d.memo = some d := by
  refine ⟨{ id := uuid, donorId := payload.donorId, charityId := payload.charityId,
            campaignId := payload.campaignId, donator := donor.owner,
            receiver := campaign.creator, amount := payload.amount,
            status := .PaymentPending "PaymentPending", createdAt := nowIso,
            paid_at_block := none,
            memo := generateCorrelationId caller time payload.donorId },
          ?_, rfl, rfl, rfl, rfl, rfl, tget_tinsert_self _ _ _⟩
  simp [reserveDonation, hd, hc, hk, h1, h2, h3]

/-- C6 witness: reserving on the sample state yields the pending reservation
with the expected payer, payee, status and memo. -/
theorem c6_reserve_success_witness :
    ∃ d : Donation,
      reserveDonation 7 0 "u1" "now" baseState ⟨"d1", "c1", "k1", 100⟩ =
        (.ok d, { baseState with
          pendingReserves := tinsert baseState.pendingReserves d.memo d }) ∧
      d.status = .PaymentPending "PaymentPending" ∧
      d.donator = dAlice.owner ∧
      d.receiver = kDrive.creator ∧
      d.amount = 100 ∧
      d.memo = generateCorrelationId 7 0 "d1" ∧
      tget (tinsert baseState.pendingReserves d.memo d) d.memo = some d :=
  c6_reserve_success 7 0 "u1" "now" baseState ⟨"d1", "c1", "k1", 100⟩ dAlice cHope kDrive
    (by decide) (by decide) (by decide) (by decide) (by decide) (by decide)

/-- On the success path (non-empty ids, donor, charity and campaign all
found) `reserveDonation` returns exactly the constructed reservation and
the state with it inserted into the pending table under its memo. -/
theorem reserve_on_existing (caller : Principal) (time : Nat) (uuid nowIso : String)
    (s : State) (payload : DonationPayload)
    (donor : DonorProfile) (charity : Charity) (campaign : Campaign)
    (h1 : payload.donorId ≠ "") (h2 : payload.charityId ≠ "") (h3 : payload.campaignId ≠ "")
    (hd : tget s.donorProfileStorage payload.donorId = some donor)
    (hc : tget s.charityProfileStorage payload.charityId = some charity)
    (hk : tget s.campaignStorage payload.campaignId = some campaign) :
    reserveDonation caller time uuid nowIso s payload =
      (.ok (mkReservation caller time uuid nowIso payload donor campaign),
       { s with pendingReserves :=
                  tinsert s.pendingReserves
                    (generateCorrelationId caller time payload.donorId)
                    (mkReservation caller time uuid nowIso payload donor campaign) }) := by
  simp [reserveDonation, mkReservation, hd, hc, hk, h1, h2, h3]

/-- On the success path (verification true, pending entry found, donor
found under a key matching its stored id) `completeReserveDonation` returns
exactly the completed record and the state with the pending entry removed,
the donor credited, and the completed record persisted under the caller. -/
theorem complete_on_pending (caller : Principal) (ledger : List Block) (s : State)
    (reservor : Principal) (donorId : String) (reservePrice blockIdx memo : Nat)
    (r : Donation) (donor : DonorProfile)
    (hp : tget s.pendingReserves memo = some r)
    (hd : tget s.donorProfileStorage donorId = some donor)
    (hid : donor.id = donorId)
    (hv : verifyPaymentInternal ledger caller reservor reservePrice blockIdx memo = true) :
    completeReserveDonation caller ledger s reservor donorId reservePrice blockIdx memo =
      (.ok { r with status := .Completed "COMPLETED", paid_at_block := some blockIdx },
       { s with
          pendingReserves := tremove s.pendingReserves memo
          donorProfileStorage := tinsert s.donorProfileStorage donorId
            { donor with donationAmount := donor.donationAmount + reservePrice }
          persistedReserves := tinsert s.persistedReserves caller
            { r with status := .Completed "COMPLETED", paid_at_block := some blockIdx } }) := by
  simp [completeReserveDonation, hv, hp, hd, hid]

/-- C1: a successful `reserveDonation` for an existing donor, immediately
followed by `completeReserveDonation` with that reservation's memo and
amount under a ledger on which verification returns true, yields a donation
with status `Completed` and `paid_at_block` set to the block, and increases
the donor's `donationAmount` by exactly the reserved amount. -/
theorem c1_reserve_then_complete (caller caller2 reservor : Principal) (time : Nat)
    (uuid nowIso : String) (s : State) (payload : DonationPayload)
    (donor : DonorProfile) (charity : Charity) (campaign : Campaign)
    (ledger : List Block) (blockIdx : Nat)
    (h1 : payload.donorId ≠ "") (h2 : payload.charityId ≠ "") (h3 : payload.campaignId ≠ "")
    (hd : tget s.donorProfileStorage payload.donorId = some donor)
    (hid : donor.id = payload.donorId)
    (hc : tget s.charityProfileStorage payload.charityId = some charity)
    (hk : tget s.campaignStorage payload.campaignId = some campaign)
    (hv : verifyPaymentInternal ledger caller2 reservor payload.amount blockIdx
        (generateCorrelationId caller time payload.donorId) = true) :
    ∃ (d : Donation) (s1 : State),
      reserveDonation caller time uuid nowIso s payload = (.ok d, s1) ∧
      d.amount = payload.amount ∧
      ∃ (r : Donation) (s2 : State),
        completeReserveDonation caller2 ledger s1 reservor payload.donorId payload.amount
            blockIdx d.memo = (.ok r, s2) ∧
        r.status = .Completed "COMPLETED" ∧
        r.paid_at_block = some blockIdx ∧
        tget s2.donorProfileStorage payload.donorId =
          some { donor with donationAmount := donor.donationAmount + payload.amount } := by
  have hres := reserve_on_existing caller time uuid nowIso s payload donor charity campaign
    h1 h2 h3 hd hc hk
  refine ⟨mkReservation caller time uuid nowIso payload donor campaign, _, hres, rfl, ?_⟩
  have hcomp := complete_on_pending caller2 ledger
    { s with pendingReserves :=
               tinsert s.pendingReserves
                 (generateCorrelationId caller time payload.donorId)
                 (mkReservation caller time uuid nowIso payload donor campaign) }
    reservor payload.donorId payload.amount blockIdx
    (generateCorrelationId caller time payload.donorId)
    (mkReservation caller time uuid nowIso payload donor campaign) donor
    (tget_tinsert_self _ _ _) hd hid hv
  exact ⟨_, _, hcomp, rfl, rfl, tget_tinsert_self _ _ _⟩

/-- C1 witness: on the sample state with a matching one-block ledger,
reserve-then-complete completes the donation at block 0 and credits Alice's
`donationAmount` with the reserved 100. -/
theorem c1_reserve_then_complete_witness :
    ∃ (d : Donation) (s1 : State),
      reserveDonation 7 0 "u1" "now" baseState ⟨"d1", "c1", "k1", 100⟩ = (.ok d, s1) ∧
      d.amount = 100 ∧
      ∃ (r : Donation) (s2 : State),
        completeReserveDonation 7 (oneBlockLedger (generateCorrelationId 7 0 "d1") 7 9 100)
            s1 9 "d1" 100 0 d.memo = (.ok r, s2) ∧
        r.status = .Completed "COMPLETED" ∧
        r.paid_at_block = some 0 ∧
        tget s2.donorProfileStorage "d1" =
          some { dAlice with donationAmount := dAlice.donationAmount + 100 } :=
  c1_reserve_then_complete 7 7 9 0 "u1" "now" baseState ⟨"d1", "c1", "k1", 100⟩
    dAlice cHope kDrive (oneBlockLedger (generateCorrelationId 7 0 "d1") 7 9 100) 0
    (by decide) (by decide) (by decide) (by decide) (by decide) (by decide) (by decide)
    (by decide)

/-- C2: with verification returning true, completing a pending reservation
removes the pending entry for its memo, and a second completion call with
the same memo (verification still true) fails with the `NotFound` error and
leaves the state as after the first call: completion is at most once per
memo. -/
theorem c2_complete_at_most_once (caller : Principal) (ledger : List Block) (s : State)
    (reservor : Principal) (donorId : String) (reservePrice blockIdx memo : Nat)
    (r : Donation) (donor : DonorProfile)
    (hp : tget s.pendingReserves memo = some r)
    (hd : tget s.donorProfileStorage donorId = some donor)
    (hv : verifyPaymentInternal ledger caller reservor reservePrice blockIdx memo = true) :
    ∃ s1 : State,
      completeReserveDonation caller ledger s reservor donorId reservePrice blockIdx memo =
        (.ok { r with status := .Completed "COMPLETED", paid_at_block := some blockIdx }, s1) ∧
      tget s1.pendingReserves memo = none ∧
      completeReserveDonation caller ledger s1 reservor donorId reservePrice blockIdx memo =
        (.err (.NotFound (noPendingMsg donorId)), s1) := by
  refine ⟨{ s with
      pendingReserves := tremove s.pendingReserves memo
      donorProfileStorage := tinsert s.donorProfileStorage donor.id
        { donor with donationAmount := donor.donationAmount + reservePrice }
      persistedReserves := tinsert s.persistedReserves caller
        { r with status := .Completed "COMPLETED", paid_at_block := some blockIdx } },
    ?_, tget_tremove_self _ _, ?_⟩
  · simp [completeReserveDonation, hv, hp, hd]
  · simp [completeReserveDonation, hv, tget_tremove_self]

/-- C2 witness: completing the sample pending reservation (memo 42) twice
with a matching ledger: the first call succeeds and empties the slot, the
second fails with the `NotFound` error. -/
theorem c2_complete_at_most_once_witness :
    ∃ s1 : State,
      completeReserveDonation 7 (oneBlockLedger 42 7 9 100) pendState 9 "d1" 100 0 42 =
        (.ok { wReserve with status := .Completed "COMPLETED", paid_at_block := some 0 }, s1) ∧
      tget s1.pendingReserves 42 = none ∧
      completeReserveDonation 7 (oneBlockLedger 42 7 9 100) s1 9 "d1" 100 0 42 =
        (.err (.NotFound (noPendingMsg "d1")), s1) :=
  c2_complete_at_most_once 7 (oneBlockLedger 42 7 9 100) pendState 9 "d1" 100 0 42
    wReserve dAlice (by decide) (by decide) (by decide)

/-- C7: the expiry callback only removes the pending entry for its memo: on
a state without such an entry it is the identity (a no-op, not an error, so
it is safe after completion or after an earlier removal); after it runs the
entry is gone; and a subsequent completion call for that memo, even with
verification returning true, fails with the `NotFound` error and changes
nothing. -/
theorem c7_expiry_callback (s sAbsent : State) (memo : Nat)
    (caller reservor : Principal) (ledger : List Block) (donorId : String)
    (reservePrice blockIdx : Nat)
    (habs : tget sAbsent.pendingReserves memo = none)
    (hv : verifyPaymentInternal ledger caller reservor reservePrice blockIdx memo = true) :
    discardTimeoutCallback sAbsent memo = sAbsent ∧
    tget (discardTimeoutCallback s memo).pendingReserves memo = none ∧
    completeReserveDonation caller ledger (discardTimeoutCallback s memo) reservor donorId
        reservePrice blockIdx memo =
      (.err (.NotFound (noPendingMsg donorId)), discardTimeoutCallback s memo) := by
  refine ⟨?_, tget_tremove_self _ _, ?_⟩
  · unfold discardTimeoutCallback
    rw [tremove_of_absent _ _ habs]
  · simp [completeReserveDonation, discardTimeoutCallback, hv, tget_tremove_self]

/-- C7 witness: on the sample states, the callback is a no-op where memo 42
is absent, removes the pending entry where it is present, and the later
completion attempt fails with the `NotFound` error. -/
theorem c7_expiry_callback_witness :
    discardTimeoutCallback baseState 42 = baseState ∧
    tget (discardTimeoutCallback pendState 42).pendingReserves 42 = none ∧
    completeReserveDonation 7 (oneBlockLedger 42 7 9 100) (discardTimeoutCallback pendState 42)
        9 "d1" 100 0 42 =
      (.err (.NotFound (noPendingMsg "d1")), discardTimeoutCallback pendState 42) :=
  c7_expiry_callback pendState baseState 42 7 9 (oneBlockLedger 42 7 9 100) "d1" 100 0
    (by decide) (by decide)

/-- C8: `completeReserveDonation` traps (JS `throw`, aborting the whole
call) exactly when verification succeeded, the pending entry for the memo
was found and removed, and then no donor record exists for `donorId`; every
other path of this operation — and every other modelled operation, by its
`Res`-valued type — returns a tagged success/failure value instead. -/
theorem c8_trap_characterization (caller : Principal) (ledger : List Block) (s : State)
    (reservor : Principal) (donorId : String) (reservePrice blockIdx memo : Nat) :
    (∃ m, (completeReserveDonation caller ledger s reservor donorId reservePrice
        blockIdx memo).1 = .trapped m) ↔
    (verifyPaymentInternal ledger caller reservor reservePrice blockIdx memo = true ∧
      (∃ r, tget s.pendingReserves memo = some r) ∧
      tget s.donorProfileStorage donorId = none) := by
  cases hv : verifyPaymentInternal ledger caller reservor reservePrice blockIdx memo with
  | false => simp [completeReserveDonation, hv]
  | true =>
    cases hp : tget s.pendingReserves memo with
    | none => simp [completeReserveDonation, hv, hp]
    | some r =>
      cases hd : tget s.donorProfileStorage donorId with
      | none => simp [completeReserveDonation, hv, hp, hd]
      | some donor => simp [completeReserveDonation, hv, hp, hd]

/-- C9 counterexample: principal 2 is not the creator of the sample
campaign (its creator is principal 9), yet `completeCampaign` invoked by
principal 2 succeeds and overwrites the stored campaign with status
`Completed`, instead of failing with an Unauthorized error and leaving the
record unchanged as the claim states for every campaign mutation. -/
theorem c9_complete_campaign_unauthorized_caller_succeeds :
    (2 : Principal) ≠ kDrive.creator ∧
    completeCampaign 2 baseState "k1" =
      (.ok { kDrive with status := .Completed "Completed" },
       { baseState with
          campaignStorage :=
            tinsert baseState.campaignStorage "k1"
              { kDrive with status := .Completed "Completed" } }) ∧
    tget (completeCampaign 2 baseState "k1").2.campaignStorage "k1" =
      some { kDrive with status := .Completed "Completed" } := by
  decide

/-- C9 amended: `updateCampaign` and `deleteCampaignById` fail with the
`Error "Unauthorized"` message for any caller other than the campaign's
creator and leave the state unchanged, but `completeCampaign` performs no
ownership check: it succeeds for that same non-creator caller and marks
the campaign `Completed`. -/
theorem c9_campaign_mutation_auth (caller : Principal) (s : State) (campaignId : String)
    (payload : CampaignPayload) (campaign : Campaign)
    (hk : tget s.campaignStorage campaignId = some campaign)
    (hne : campaign.creator ≠ caller) :
    updateCampaign caller s campaignId payload = (.err (.Error "Unauthorized"), s) ∧
    deleteCampaignById caller s campaignId = (.err (.Error "Unauthorized"), s) ∧
    completeCampaign caller s campaignId =
      (.ok { campaign with status := .Completed "Completed" },
       { s with
          campaignStorage :=
            tinsert s.campaignStorage campaignId
              { campaign with status := .Completed "Completed" } }) := by
  refine ⟨?_, ?_, ?_⟩ <;>
    simp [updateCampaign, deleteCampaignById, completeCampaign, hk, hne]

/-- C9 witness: caller 2 against the sample campaign created by principal
9: update and delete are rejected as Unauthorized with no state change,
completion succeeds regardless. -/
theorem c9_campaign_mutation_auth_witness :
    updateCampaign 2 baseState "k1" ⟨"c1", "T", "D", 5⟩ =
      (.err (.Error "Unauthorized"), baseState) ∧
    deleteCampaignById 2 baseState "k1" = (.err (.Error "Unauthorized"), baseState) ∧
    completeCampaign 2 baseState "k1" =
      (.ok { kDrive with status := .Completed "Completed" },
       { baseState with
          campaignStorage :=
            tinsert baseState.campaignStorage "k1"
              { kDrive with status := .Completed "Completed" } }) :=
  c9_campaign_mutation_auth 2 baseState "k1" ⟨"c1", "T", "D", 5⟩ kDrive
    (by decide) (by decide)

/-- C10: `completeReserveDonation` never reads the stored reservation's
amount when verifying or crediting: verification is performed against the
caller-supplied `reservePrice` and `reservor`, and when it succeeds for a
`reservePrice` different from the stored amount, the returned record keeps
the stored amount while the donor is credited `reservePrice`, not the
stored amount. -/
theorem c10_credits_reserve_price (caller : Principal) (ledger : List Block) (s : State)
    (reservor : Principal) (donorId : String) (reservePrice blockIdx memo : Nat)
    (r : Donation) (donor : DonorProfile)
    (hp : tget s.pendingReserves memo = some r)
    (hd : tget s.donorProfileStorage donorId = some donor)
    (hid : donor.id = donorId)
    (hv : verifyPaymentInternal ledger caller reservor reservePrice blockIdx memo = true)
    (hne : reservePrice ≠ r.amount) :
    ∃ s1 : State,
      completeReserveDonation caller ledger s reservor donorId reservePrice blockIdx memo =
        (.ok { r with status := .Completed "COMPLETED", paid_at_block := some blockIdx }, s1) ∧
      tget s1.donorProfileStorage donorId =
        some { donor with donationAmount := donor.donationAmount + reservePrice } ∧
      donor.donationAmount + reservePrice ≠ donor.donationAmount + r.amount := by
  have hcomp := complete_on_pending caller ledger s reservor donorId reservePrice blockIdx
    memo r donor hp hd hid hv
  exact ⟨_, hcomp, tget_tinsert_self _ _ _, by omega⟩

/-- C10 witness: the sample reservation stores amount 100 under memo 42,
but completion called with `reservePrice` 50 against a ledger showing a
50-unit transfer succeeds and credits the donor 50, not 100. -/
theorem c10_credits_reserve_price_witness :
    ∃ s1 : State,
      completeReserveDonation 7 (oneBlockLedger 42 7 9 50) pendState 9 "d1" 50 0 42 =
        (.ok { wReserve with status := .Completed "COMPLETED", paid_at_block := some 0 }, s1) ∧
      tget s1.donorProfileStorage "d1" =
        some { dAlice with donationAmount := dAlice.donationAmount + 50 } ∧
      dAlice.donationAmount + 50 ≠ dAlice.donationAmount + wReserve.amount :=
  c10_credits_reserve_price 7 (oneBlockLedger 42 7 9 50) pendState 9 "d1" 50 0 42
    wReserve dAlice (by decide) (by decide) (by decide) (by decide) (by decide)

end DonorTracker
